import Mathlib

/-!
Shallow embedding of `src/tuyaapi-extended.js` (tuya-mqtt's extended tuyapi
client): the query/control request builders (`get`, `set`), the retrying
transport (`_send`, with the node `retry` module's semantics at the options
the source passes), and the per-attempt socket behaviour (`_sendUnwrapped`).
JavaScript values are modelled by `JSVal`, objects by field lists in
insertion order, and fallible JS evaluation by `Except String` (the error
carries the thrown message).
-/

namespace Tuya

mutual

/-- A JavaScript value as the source manipulates them: `undefined`, `null`,
booleans, (integer) numbers, strings and plain objects. -/
inductive JSVal where
  | undefined : JSVal
  | null : JSVal
  | bool (b : Bool) : JSVal
  | num (n : Int) : JSVal
  | str (s : String) : JSVal
  | obj (fields : JFields) : JSVal
deriving Repr, DecidableEq

/-- The fields of a JS object literal, in insertion order. -/
inductive JFields where
  | nil : JFields
  | cons (k : String) (v : JSVal) (rest : JFields) : JFields
deriving Repr, DecidableEq

end

/-- Build an object field list from a Lean list of key/value pairs. -/
def fieldsOf : List (String × JSVal) → JFields
  | [] => .nil
  | (k, v) :: rest => .cons k v (fieldsOf rest)

/-- First binding of a key in a field list. -/
def JFields.lookup : JFields → String → Option JSVal
  | .nil, _ => none
  | .cons k v rest, key => if k = key then some v else rest.lookup key

/-- Property read on an object's fields: a missing key yields `undefined`. -/
def objGet (o : JFields) (k : String) : JSVal :=
  (o.lookup k).getD .undefined

/-- JS `typeof`. -/
def typeofStr : JSVal → String
  | .undefined => "undefined"
  | .null => "object"
  | .bool _ => "boolean"
  | .num _ => "number"
  | .str _ => "string"
  | .obj _ => "object"

/-- Loose definedness, JS `x != undefined`: false exactly for `undefined`
and `null` (which are loosely equal to `undefined`). -/
def looseDefined : JSVal → Bool
  | .undefined => false
  | .null => false
  | _ => true

/-- JS truthiness (`if (x)`). -/
def truthy : JSVal → Bool
  | .undefined => false
  | .null => false
  | .bool b => b
  | .num n => n ≠ 0
  | .str s => s ≠ ""
  | .obj _ => true

/-- JS `ToString` as used for a computed property key `o[x]`: total, never
throws (`undefined`/`null` become the strings "undefined"/"null"). -/
def toPropKey : JSVal → String
  | .undefined => "undefined"
  | .null => "null"
  | .bool b => cond b "true" "false"
  | .num n => toString n
  | .str s => s
  | .obj _ => "[object Object]"

/-- JS `x.toString()`: throws a TypeError on `undefined`/`null`. -/
def jsToString : JSVal → Except String String
  | .undefined => .error "TypeError: Cannot read toString of undefined"
  | .null => .error "TypeError: Cannot read toString of null"
  | .bool b => .ok (cond b "true" "false")
  | .num n => .ok (toString n)
  | .str s => .ok s
  | .obj _ => .ok "[object Object]"

/-- Indexing a string with a property key, JS style: a canonical numeric
key yields that character, anything else `undefined` (string methods are
not modelled; the source never reads them). -/
def strIndex (s : String) (k : String) : JSVal :=
  match k.toNat? with
  | some i =>
    match s.data.get? i with
    | some ch => .str (String.mk [ch])
    | none => .undefined
  | none => .undefined

/-- JS property access `v[k]`: throws a TypeError when the base is
`undefined` or `null`; primitive bases are boxed and yield `undefined`
(except string character indexing). -/
def jsGet : JSVal → String → Except String JSVal
  | .undefined, _ => .error "TypeError: Cannot read properties of undefined"
  | .null, _ => .error "TypeError: Cannot read properties of null"
  | .obj fs, k => .ok (objGet fs k)
  | .str s, k => .ok (strIndex s k)
  | .bool _, _ => .ok .undefined
  | .num _, _ => .ok .undefined

/-- Join strings with commas (the separator placement of
`Array.prototype.join(',')`, which `JSON.stringify` uses for members). -/
def joinComma : List String → String
  | [] => ""
  | [s] => s
  | s :: rest => s ++ "," ++ joinComma rest

mutual

/-- `JSON.stringify` on a value: `undefined` has no JSON representation
(`none`); object fields whose value is `undefined` are dropped. String
contents are emitted verbatim (the source only serialises identifiers,
digit strings and property values, which need no escaping). -/
def jsonStringify : JSVal → Option String
  | .undefined => none
  | .null => some "null"
  | .bool b => some (cond b "true" "false")
  | .num n => some (toString n)
  | .str s => some ("\"" ++ s ++ "\"")
  | .obj fs => some ("\x7b" ++ joinComma (jsonFields fs) ++ "\x7d")

/-- The serialised `"key":value` members of an object, dropping fields whose
value does not stringify (i.e. is `undefined`). -/
def jsonFields : JFields → List String
  | .nil => []
  | .cons k v rest =>
    match jsonStringify v with
    | none => jsonFields rest
    | some sv => ("\"" ++ k ++ "\":" ++ sv) :: jsonFields rest

end

/-! ## DeviceSession: `get` (query) — `TuyaDevice.prototype.get` -/

/-- The query payload `{gwId: this.device.id, devId: this.device.id}`
(source lines 23–26). -/
def queryPayload (id : String) : JSVal :=
  .obj (fieldsOf [("gwId", .str id), ("devId", .str id)])

/-- A logical request frame: the command byte passed to `Parser.encode`
and the body bytes/string it wraps. -/
structure Frame where
  commandByte : Nat
  body : String
deriving Repr, DecidableEq

/-- The frame `get` builds: the plaintext JSON of `queryPayload` encoded
with `commandByte: '0a'` (source lines 31–34); no cipher is involved. -/
def tuyaGetFrame (id : String) : Frame :=
  { commandByte := 0x0a, body := (jsonStringify (queryPayload id)).getD "" }

/-- The response shaping in `get`'s promise (source lines 37–49): read
`data.dps`; if `options.schema === true` resolve the whole decoded object;
else if `options.dps` is truthy resolve `dps[options.dps]`; else resolve
`dps['1']` when `dps != undefined && dps['1'] != undefined`, and `dps`
otherwise. -/
def querySelect (options : JFields) (data : JSVal) : Except String JSVal :=
  match jsGet data "dps" with
  | .error m => .error m
  | .ok dps =>
    if objGet options "schema" = .bool true then
      .ok data
    else if truthy (objGet options "dps") then
      jsGet dps (toPropKey (objGet options "dps"))
    else
      if looseDefined dps then
        match jsGet dps "1" with
        | .error m => .error m
        | .ok v1 => if looseDefined v1 then .ok v1 else .ok dps
      else
        .ok dps

/-! ## DeviceSession: `set` (control) — `TuyaDevice.prototype.set` -/

/-- The `dps` object `set` builds from its options (source lines 57–72):
if `options.dps != undefined || options.set != undefined` (loose), then
`{1: options.set}` when `options.dps === undefined` (strict), else
`{[options.dps.toString()]: options.set}`; otherwise the options object
itself is used verbatim. -/
def buildDps (options : JFields) : Except String JFields :=
  if looseDefined (objGet options "dps") || looseDefined (objGet options "set") then
    if objGet options "dps" = .undefined then
      .ok (.cons "1" (objGet options "set") .nil)
    else
      match jsToString (objGet options "dps") with
      | .error m => .error m
      | .ok key => .ok (.cons key (objGet options "set") .nil)
  else
    .ok options

/-- The control payload `{devId, uid: '', t: timeStamp, dps}` (source
lines 77–82), with `timeStamp = parseInt(now.getTime() / 1000, 10).toString()`
computed from the current time in milliseconds. -/
def controlPayload (devId : String) (nowMs : Nat) (dps : JFields) : JSVal :=
  .obj (fieldsOf
    [ ("devId", .str devId)
    , ("uid", .str "")
    , ("t", .str (toString (nowMs / 1000)))
    , ("dps", .obj dps) ])

/-- The frame `set` builds (source lines 88–102): encrypt the JSON of the
control payload, MD5-sign `'data=' + data + '||lpv=' + version + '||' + key`,
and encode `version + md5 + data` with `commandByte: '07'`.  `encrypt` and
`md5` stand for `this.device.cipher.encrypt` / `.md5` of the external tuyapi
library. -/
def tuyaSetFrame (encrypt md5 : String → String) (devId version key : String)
    (nowMs : Nat) (options : JFields) : Except String Frame :=
  match buildDps options with
  | .error m => .error m
  | .ok dps =>
    let payload := controlPayload devId nowMs dps
    let data := encrypt ((jsonStringify payload).getD "")
    let sig := md5 ("data=" ++ data ++ "||lpv=" ++ version ++ "||" ++ key)
    .ok { commandByte := 0x07, body := version ++ sig ++ data }

/-! ## RetryingTransport: one attempt — `TuyaDevice.prototype._sendUnwrapped`

An attempt opens a fresh `net.Socket`, arms a 1000 ms connect (inactivity)
timeout, and on `connect` disarms it, writes the frame and arms a response
timer of `this._responseTimeout * 1000` ms whose handle is assigned to
`this._sendTimeout` — a field of the session object.  The `data` handler
clears that timer, destroys the socket and runs `Parser.parse` (and
`cipher.decrypt` when the parse result is not an object/undefined) *inside
the event handler*: an exception there escapes the promise executor, so the
promise neither resolves nor rejects. -/

/-- How one attempt can end, as seen by `_send`: the promise resolves,
the promise rejects with an error message, or an exception escapes an
event handler and the promise never settles. -/
inductive AttemptOut (E R : Type) where
  | ok (r : R) : AttemptOut E R
  | err (e : E) : AttemptOut E R
  | thrown (m : String) : AttemptOut E R
deriving Repr, DecidableEq

/-- The message every socket-level error carries after `_sendUnwrapped`'s
error handler rewrites it (source line 198); the connect-phase timeout is
funnelled through the same handler (source lines 154–158). -/
def connErrMsg : String :=
  "Error communicating with device. Make sure nothing else is trying to control it or connected to it."

/-- The rejection message of the response timer (source line 172). -/
def respTimeoutMsg : String := "Timeout waiting for response"

/-- The timing of one attempt: when (ms after the attempt starts) the TCP
connect would succeed, `none` if never; and when (ms after connect) the
first response data would arrive, `none` if never. -/
structure AttemptSchedule where
  connectAt : Option ℚ
  dataAfter : Option ℚ
deriving Repr, DecidableEq

/-- The session state `_sendUnwrapped` mutates: the `this._sendTimeout`
field holding the response-timer handle. -/
structure SessionState where
  sendTimeout : Option Nat
deriving Repr, DecidableEq

/-- One attempt of `_sendUnwrapped` (source lines 142–206), returning the
session state after the attempt and its outcome.  `parse` models
`Parser.parse` on the received bytes and `decrypt` models
`this.device.cipher.decrypt` (both external tuyapi helpers; an `.error` is
a thrown exception).  `respTimeoutSec` is `this._responseTimeout` (seconds);
the connect timeout is the hard-coded 1000 ms.  `timerId` is the handle
`setTimeout` would return for the response timer. -/
def sendUnwrapped (parse : Except String JSVal) (decrypt : JSVal → Except String JSVal)
    (respTimeoutSec : ℚ) (pre : SessionState) (timerId : Nat)
    (sched : AttemptSchedule) : SessionState × AttemptOut String JSVal :=
  match sched.connectAt with
  | none =>
      -- never connects: the 1000 ms inactivity timer fires, emits an error
      -- that the error handler rewrites and rejects with
      (pre, .err connErrMsg)
  | some c =>
      if 1000 ≤ c then
        (pre, .err connErrMsg)
      else
        -- connected: connect timer disarmed, frame written, response timer
        -- armed and its handle stored on the session (this._sendTimeout = ...)
        let st : SessionState := { sendTimeout := some timerId }
        match sched.dataAfter with
        | none => (st, .err respTimeoutMsg)
        | some d =>
            if respTimeoutSec * 1000 ≤ d then
              (st, .err respTimeoutMsg)
            else
              match parse with
              | .error m => (st, .thrown m)
              | .ok v =>
                  if typeofStr v = "object" ∨ typeofStr v = "undefined" then
                    (st, .ok v)
                  else
                    match decrypt v with
                    | .error m => (st, .thrown m)
                    | .ok r => (st, .ok r)

/-! ## RetryingTransport: the retry loop — `TuyaDevice.prototype._send`

`_send` throws a `TypeError` synchronously when `typeof ip === 'undefined'`,
then runs `retry.operation({retries: 4, factor: 1.5, minTimeout: 10000})`:
the node `retry` module precomputes `retries` backoff waits
`min(minTimeout * factor^i, maxTimeout)` (no randomisation; `maxTimeout`
defaults to infinity), sorts them ascending, and `operation.retry(err)`
consumes one wait per failed attempt until none are left, after which
`operation.mainError()` — the error whose message occurred most often,
later attempts winning ties — is surfaced. -/

/-- The options `_send` passes to `retry.operation` (source lines 119–123). -/
structure RetryOptions where
  retries : Nat
  factor : ℚ
  minTimeout : ℚ

/-- `retry.createTimeout(attempt, opts)` with `randomize: false` and the
default infinite `maxTimeout`: `minTimeout * factor ^ attempt`. -/
def createTimeout (o : RetryOptions) (attempt : Nat) : ℚ :=
  o.minTimeout * o.factor ^ attempt

/-- Ascending insertion into a sorted list (the numeric sort the `retry`
module applies to its precomputed timeouts). -/
def insertAsc (x : ℚ) : List ℚ → List ℚ
  | [] => [x]
  | y :: ys => if x ≤ y then x :: y :: ys else y :: insertAsc x ys

/-- `retry.timeouts(opts)`: one timeout per permitted retry, sorted
ascending. -/
def retryTimeouts (o : RetryOptions) : List ℚ :=
  ((List.range o.retries).map (createTimeout o)).foldr insertAsc []

/-- The retry options the source hard-codes: 4 retries, factor 1.5,
10000 ms minimum wait. -/
def srcRetryOptions : RetryOptions := { retries := 4, factor := 3 / 2, minTimeout := 10000 }

/-- `operation.mainError()`'s scan (node `retry`): walk the recorded errors,
counting occurrences of each message; an error whose running count reaches
or exceeds the best count so far becomes the new main error. -/
def mainErrorGo {E : Type} (msg : E → String) :
    List String → Option E → Nat → List E → Option E
  | _, best, _, [] => best
  | seen, best, bestCount, e :: rest =>
      let c := seen.count (msg e) + 1
      if bestCount ≤ c then
        mainErrorGo msg (seen ++ [msg e]) (some e) c rest
      else
        mainErrorGo msg (seen ++ [msg e]) best bestCount rest

/-- `operation.mainError()`: `none` only when no error was recorded. -/
def mainError {E : Type} (msg : E → String) (errs : List E) : Option E :=
  mainErrorGo msg [] none 0 errs

/-- The caller-visible end of a whole `_send` call. -/
inductive SendOutcome (E R : Type) where
  /-- the synchronous `TypeError` thrown before any attempt -/
  | thrownTypeError (m : String) : SendOutcome E R
  /-- the returned promise resolved -/
  | resolved (r : R) : SendOutcome E R
  /-- the returned promise rejected with `operation.mainError()` -/
  | rejected (e : E) : SendOutcome E R
  /-- an exception escaped an event handler: the promise never settles -/
  | hung (m : String) : SendOutcome E R
deriving Repr, DecidableEq

/-- The attempt loop of `operation.attempt` / `operation.retry`:
`attempt i` is the outcome of the `i`-th `_sendUnwrapped` call (0-based),
`ts` the remaining backoff waits, `errs` the errors recorded so far.
Returns the overall outcome, the number of attempts made (= sockets
opened), and the waits actually slept between attempts. -/
def attemptLoop {E R : Type} (msg : E → String) (attempt : Nat → AttemptOut E R) :
    List ℚ → List E → Nat → SendOutcome E R × Nat × List ℚ
  | ts, errs, idx =>
    match attempt idx with
    | .ok r => (.resolved r, idx + 1, [])
    | .thrown m => (.hung m, idx + 1, [])
    | .err e =>
        match ts with
        | [] =>
            (.rejected ((mainError msg (errs ++ [e])).getD e), idx + 1, [])
        | t :: rest =>
            let r := attemptLoop msg attempt rest (errs ++ [e]) (idx + 1)
            (r.1, r.2.1, t :: r.2.2)

/-- `_send` (source lines 114–140): throw a `TypeError` when the address is
undefined (an empty-string address passes the check), otherwise run the
attempt loop with the hard-coded retry options. -/
def deviceSend {E R : Type} (msg : E → String) (o : RetryOptions)
    (ip : Option String) (attempt : Nat → AttemptOut E R) :
    SendOutcome E R × Nat × List ℚ :=
  match ip with
  | none => (.thrownTypeError "Device missing IP address.", 0, [])
  | some _ => attemptLoop msg attempt (retryTimeouts o) [] 0

/-! ## Helper instances and lemmas -/

instance {ε α : Type} [DecidableEq ε] [DecidableEq α] : DecidableEq (Except ε α) :=
  fun a b =>
    match a, b with
    | .ok x, .ok y => if h : x = y then .isTrue (by rw [h]) else .isFalse (by simp [h])
    | .error x, .error y => if h : x = y then .isTrue (by rw [h]) else .isFalse (by simp [h])
    | .ok _, .error _ => .isFalse (by simp)
    | .error _, .ok _ => .isFalse (by simp)

/-- The wait list the `retry` module precomputes at the source's options:
10000 · 1.5^i for i = 0..3, already ascending. -/
theorem retryTimeouts_srcRetryOptions :
    retryTimeouts srcRetryOptions = [10000, 15000, 22500, 33750] := by
  norm_num [retryTimeouts, srcRetryOptions, createTimeout, List.range_succ, insertAsc]

/-- On a loosely defined value, `.toString()` succeeds and agrees with the
property-key coercion. -/
theorem jsToString_of_looseDefined (v : JSVal) (h : looseDefined v = true) :
    jsToString v = .ok (toPropKey v) := by
  cases v <;> simp_all [looseDefined, jsToString, toPropKey]

/-- Reading a key from a non-empty field list. -/
theorem objGet_cons (a : String) (v : JSVal) (rest : JFields) (k : String) :
    objGet (JFields.cons a v rest) k = if a = k then v else objGet rest k := by
  simp only [objGet, JFields.lookup]
  split <;> rfl

/-- Reading a key from an empty field list. -/
theorem objGet_nil (k : String) : objGet .nil k = .undefined := rfl

/-! ## Claim C1 — query response shaping -/

/-- C1, counterexample: with no options and the decoded map
`dps = {"1": true, "2": 5}` (more than one key), `query` resolves to
`dps["1"] = true`, not to the whole map as the claim states: the code only
tests `dps["1"] != undefined`, never that `"1"` is the *only* key. -/
theorem query_default_shaping_counterexample :
    querySelect .nil (.obj (fieldsOf [("dps", .obj (fieldsOf [("1", .bool true), ("2", .num 5)]))]))
      = .ok (.bool true) ∧
    Except.ok (ε := String) (JSVal.bool true)
      ≠ .ok (.obj (fieldsOf [("1", .bool true), ("2", .num 5)])) :=
  ⟨rfl, by decide⟩

/-- C1 (amended): with no options, `query` resolves to `dps["1"]` whenever
key `"1"` is (loosely) defined — regardless of how many other keys the map
has — and to the whole map otherwise; with `options.dps = k` (a nonempty
string key) it resolves to `dps[k]`. -/
theorem query_shaping (dpsFields : JFields) (k : String) (hk : k ≠ "") :
    querySelect .nil (.obj (fieldsOf [("dps", .obj dpsFields)]))
      = .ok (if looseDefined (objGet dpsFields "1") then objGet dpsFields "1" else .obj dpsFields) ∧
    querySelect (fieldsOf [("dps", .str k)]) (.obj (fieldsOf [("dps", .obj dpsFields)]))
      = .ok (objGet dpsFields k) := by
  constructor
  · simp [querySelect, jsGet, objGet, JFields.lookup, fieldsOf, truthy, looseDefined]
    split <;> simp
  · simp [querySelect, jsGet, objGet, JFields.lookup, fieldsOf, truthy, looseDefined, toPropKey, hk]

/-- C1 witness: the amended shaping at `dps = {"1": true, "2": 5}` with no
options (resolves `true`) and with `options.dps = "2"` (resolves `5`). -/
theorem query_shaping_witness :
    querySelect .nil (.obj (fieldsOf [("dps", .obj (fieldsOf [("1", .bool true), ("2", .num 5)]))]))
      = .ok (if looseDefined (objGet (fieldsOf [("1", .bool true), ("2", .num 5)]) "1")
          then objGet (fieldsOf [("1", .bool true), ("2", .num 5)]) "1"
          else .obj (fieldsOf [("1", .bool true), ("2", .num 5)])) ∧
    querySelect (fieldsOf [("dps", .str "2")])
        (.obj (fieldsOf [("dps", .obj (fieldsOf [("1", .bool true), ("2", .num 5)]))]))
      = .ok (objGet (fieldsOf [("1", .bool true), ("2", .num 5)]) "2") :=
  query_shaping (fieldsOf [("1", .bool true), ("2", .num 5)]) "2" (by decide)

/-! ## Claim C2 — retry exhaustion -/

/-- C2: when every attempt rejects with a connection error (the rewritten
socket-error message), `_send` makes exactly 5 attempts (1 initial + 4
retries), sleeps the waits 10000, 15000, 22500, 33750 ms — each at least
the 10-second minimum and non-decreasing (factor 1.5) — and rejects with
the 5th (last) attempt's error object itself. -/
theorem send_retry_exhaustion {E R : Type} (msg : E → String) (e : Nat → E)
    (attempt : Nat → AttemptOut E R) (ip : String)
    (hatt : ∀ i, attempt i = .err (e i)) (hmsg : ∀ i, msg (e i) = connErrMsg) :
    deviceSend msg srcRetryOptions (some ip) attempt
      = (.rejected (e 4), 5, [10000, 15000, 22500, 33750]) ∧
    (∀ w ∈ ([10000, 15000, 22500, 33750] : List ℚ), 10000 ≤ w) ∧
    ([10000, 15000, 22500, 33750] : List ℚ).Chain' (· ≤ ·) := by
  refine ⟨?_, by norm_num, ?_⟩
  · simp only [deviceSend, retryTimeouts_srcRetryOptions]
    simp [attemptLoop, hatt, hmsg, mainError, mainErrorGo]
  · norm_num [List.chain'_cons, List.chain'_singleton]

/-- C2 witness: the exhaustion trace at a transport whose `i`-th attempt
rejects with the error `i` carrying the connection message. -/
theorem send_retry_exhaustion_witness :
    deviceSend (E := Nat) (R := Unit) (fun _ => connErrMsg) srcRetryOptions (some "192.168.1.20")
        (fun i => .err i)
      = (.rejected 4, 5, [10000, 15000, 22500, 33750]) ∧
    (∀ w ∈ ([10000, 15000, 22500, 33750] : List ℚ), 10000 ≤ w) ∧
    ([10000, 15000, 22500, 33750] : List ℚ).Chain' (· ≤ ·) :=
  send_retry_exhaustion (fun _ => connErrMsg) (fun i => i) (fun i => .err i) "192.168.1.20"
    (fun _ => rfl) (fun _ => rfl)

/-! ## Claim C3 — fail-fast on missing address -/

/-- C3, counterexample: an *empty-string* address passes the
`typeof ip === 'undefined'` check, so `_send` proceeds to open sockets (5
attempts here, each a fresh socket) and never reports the missing-address
`TypeError` — refuting the claim's "undefined or empty" fail-fast. -/
theorem send_empty_ip_counterexample :
    deviceSend (E := String) (R := Unit) (fun m => m) srcRetryOptions (some "")
        (fun _ => .err connErrMsg)
      = (.rejected connErrMsg, 5, [10000, 15000, 22500, 33750]) ∧
    (5 : Nat) ≠ 0 ∧
    SendOutcome.rejected (E := String) (R := Unit) connErrMsg
      ≠ .thrownTypeError "Device missing IP address." := by
  refine ⟨?_, by decide, by decide⟩
  simp only [deviceSend, retryTimeouts_srcRetryOptions]
  simp [attemptLoop, mainError, mainErrorGo]

/-- C3 (amended): only an address that is `undefined` fails fast: `_send`
throws the `TypeError` "Device missing IP address." synchronously, before
any attempt — zero sockets opened, zero retries, for every retry policy
and every transport behaviour. -/
theorem send_undefined_ip_fail_fast {E R : Type} (msg : E → String) (o : RetryOptions)
    (attempt : Nat → AttemptOut E R) :
    deviceSend msg o none attempt = (.thrownTypeError "Device missing IP address.", 0, []) := rfl

/-! ## Claim C4 — connect timeout vs response timeout -/

/-- C4: if the connect succeeds (before the 1000 ms connect timer) but no
data arrives before `responseTimeout` seconds, the attempt rejects with the
response-timeout error — a kind distinct from the connection error — even
when the response timeout is shorter than the connect timeout would have
allowed; whereas an attempt whose connect phase times out (or that never
connects) rejects with the connection error. -/
theorem attempt_timeout_isolation (parse : Except String JSVal)
    (decrypt : JSVal → Except String JSVal) (rt c : ℚ) (d : Option ℚ)
    (pre : SessionState) (tid : Nat)
    (hc : c < 1000) (hnod : ∀ t, d = some t → rt * 1000 ≤ t) :
    (sendUnwrapped parse decrypt rt pre tid ⟨some c, d⟩).2 = .err respTimeoutMsg ∧
    respTimeoutMsg ≠ connErrMsg ∧
    (∀ c', 1000 ≤ c' → (sendUnwrapped parse decrypt rt pre tid ⟨some c', d⟩).2 = .err connErrMsg) ∧
    (sendUnwrapped parse decrypt rt pre tid ⟨none, d⟩).2 = .err connErrMsg := by
  refine ⟨?_, by decide, ?_, rfl⟩
  · simp only [sendUnwrapped]
    rw [if_neg (not_le.mpr hc)]
    cases d with
    | none => rfl
    | some t => simp [hnod t rfl]
  · intro c' h
    simp only [sendUnwrapped]
    rw [if_pos h]

/-- C4 witness: with a 0.5-second response timeout (shorter than the 1000 ms
connect timeout), a connect at 100 ms and no data, the attempt rejects with
the response-timeout error; at a connect time of 1000 ms, or never, it
rejects with the connection error. -/
theorem attempt_timeout_isolation_witness :
    (sendUnwrapped (.ok .undefined) (fun _ => .ok .undefined) (1 / 2) ⟨none⟩ 0
        ⟨some 100, none⟩).2 = .err respTimeoutMsg ∧
    respTimeoutMsg ≠ connErrMsg ∧
    (∀ c', 1000 ≤ c' → (sendUnwrapped (.ok .undefined) (fun _ => .ok .undefined) (1 / 2) ⟨none⟩ 0
        ⟨some c', none⟩).2 = .err connErrMsg) ∧
    (sendUnwrapped (.ok .undefined) (fun _ => .ok .undefined) (1 / 2) ⟨none⟩ 0
        ⟨none, none⟩).2 = .err connErrMsg :=
  attempt_timeout_isolation (.ok .undefined) (fun _ => .ok .undefined) (1 / 2) 100 none
    ⟨none⟩ 0 (by norm_num) (fun t h => Option.noConfusion h)

/-! ## Claim C5 — control envelope -/

/-- C5: for every `update` call, the control frame carries commandByte
`0x07` and its body is `protocolVersion || signature || ciphertext`, where
the ciphertext encrypts the JSON of `{devId, uid: "", t, dps}` (with `t`
the current Unix seconds as a decimal string, computed in `controlPayload`
from the millisecond clock) and the signature is the digest of
`"data=" + ciphertext + "||lpv=" + protocolVersion + "||" + key`; a closed
instance pins down the exact serialised payload text. -/
theorem set_control_envelope (encrypt md5 : String → String) (devId version key : String)
    (nowMs : Nat) (options : JFields) :
    tuyaSetFrame encrypt md5 devId version key nowMs options =
      (buildDps options).map (fun dps =>
        ⟨0x07, version
          ++ md5 ("data=" ++ encrypt ((jsonStringify (controlPayload devId nowMs dps)).getD "")
              ++ "||lpv=" ++ version ++ "||" ++ key)
          ++ encrypt ((jsonStringify (controlPayload devId nowMs dps)).getD "")⟩) ∧
    jsonStringify (controlPayload "dev1" 1700000123456 (.cons "1" (.bool true) .nil)) =
      some "\x7b\"devId\":\"dev1\",\"uid\":\"\",\"t\":\"1700000123\",\"dps\":\x7b\"1\":true\x7d\x7d" := by
  constructor
  · cases h : buildDps options <;> simp [tuyaSetFrame, h, Except.map]
  · rfl

/-! ## Claim C6 — per-call state and the `_sendTimeout` field -/

/-- C6, counterexample: a call that connects and completes successfully
writes the response-timer handle to the session field `this._sendTimeout`
(source line 170) and never resets it: starting from a session with no
stored handle, the completed round trip leaves `sendTimeout = some 7` —
persisted state on the session *does* survive the call, refuting the claim
that none does (and, being instance state, it is shared by concurrent calls
on the same session). -/
theorem send_timeout_field_counterexample :
    (sendUnwrapped (.ok .undefined) (fun _ => .ok .undefined) 10 ⟨none⟩ 7 ⟨some 0, some 0⟩).1
      = ⟨some 7⟩ ∧
    (sendUnwrapped (.ok .undefined) (fun _ => .ok .undefined) 10 ⟨none⟩ 7 ⟨some 0, some 0⟩).2
      = .ok .undefined ∧
    (⟨some 7⟩ : SessionState) ≠ ⟨none⟩ := by
  refine ⟨?_, ?_, by decide⟩ <;> norm_num [sendUnwrapped, typeofStr]

/-- C6 (amended): the per-call payload, frame and envelope values are
ephemeral, but the response-timer handle is not: every attempt that reaches
the connected phase overwrites the session field `_sendTimeout` with its
own timer handle — whatever the field held before and however the attempt
ends — and the field still holds that handle after the call ends. -/
theorem send_timeout_field_persists (parse : Except String JSVal)
    (decrypt : JSVal → Except String JSVal) (rt : ℚ) (pre : SessionState) (tid : Nat)
    (c : ℚ) (d : Option ℚ) (hc : c < 1000) :
    (sendUnwrapped parse decrypt rt pre tid ⟨some c, d⟩).1 = ⟨some tid⟩ := by
  simp only [sendUnwrapped]
  rw [if_neg (not_le.mpr hc)]
  rcases d with _ | t
  · rfl
  · by_cases h : rt * 1000 ≤ t
    · simp [h]
    · simp only [if_neg h]
      cases parse with
      | error m => rfl
      | ok v =>
        by_cases h2 : typeofStr v = "object" ∨ typeofStr v = "undefined"
        · simp [h2]
        · simp only [if_neg h2]
          cases decrypt v <;> rfl

/-- C6 witness: an attempt on a session already holding handle 99 that
connects at 5 ms and times out waiting for data still leaves its own
handle 42 in `_sendTimeout`. -/
theorem send_timeout_field_persists_witness :
    (sendUnwrapped (.ok .undefined) (fun _ => .ok .undefined) 10 ⟨some 99⟩ 42
        ⟨some 5, none⟩).1 = ⟨some 42⟩ :=
  send_timeout_field_persists (.ok .undefined) (fun _ => .ok .undefined) 10 ⟨some 99⟩ 42
    5 none (by norm_num)

/-! ## Claim C7 — decode/cipher errors and the retry budget -/

/-- C7, counterexample: when `Parser.parse` throws on the received bytes,
the exception escapes the `data` event handler: the `_send` promise ends
*hung* after a single attempt — it neither rejects nor resolves, so the
error is never delivered to the caller through the promise, refuting
"propagates to the caller immediately" (the no-retry half of the claim is
what the amended theorem keeps). -/
theorem decode_error_propagation_counterexample :
    deviceSend (fun m => m) srcRetryOptions (some "10.1.1.5")
        (fun _ => (sendUnwrapped (.error "ProtocolDecodeError: checksum mismatch")
          (fun _ => .ok .undefined) 10 ⟨none⟩ 0 ⟨some 0, some 0⟩).2)
      = (.hung "ProtocolDecodeError: checksum mismatch", 1, []) ∧
    SendOutcome.hung (E := String) (R := JSVal) "ProtocolDecodeError: checksum mismatch"
      ≠ .rejected "ProtocolDecodeError: checksum mismatch" ∧
    SendOutcome.hung (E := String) (R := JSVal) "ProtocolDecodeError: checksum mismatch"
      ≠ .resolved .undefined := by
  refine ⟨?_, by decide, by decide⟩
  norm_num [deviceSend, attemptLoop, sendUnwrapped, typeofStr]

/-- C7 (amended): an attempt in which frame decoding or decryption throws
consumes no retry budget — `_send` stops after that single attempt with no
backoff wait — but the error does not surface through the promise: the call
ends hung (the exception escapes the `data` handler).  A parse (decode)
throw and a decrypt (cipher) throw on a non-object payload each produce
exactly this escaped-exception attempt outcome. -/
theorem decode_error_no_retry {E R : Type} (msg : E → String) (o : RetryOptions) (ip : String)
    (attempt : Nat → AttemptOut E R) (m : String) (h0 : attempt 0 = .thrown m) :
    deviceSend msg o (some ip) attempt = (.hung m, 1, []) ∧
    (∀ (decrypt : JSVal → Except String JSVal) (rt c d : ℚ) (pre : SessionState) (tid : Nat),
      c < 1000 → d < rt * 1000 →
      (sendUnwrapped (.error m) decrypt rt pre tid ⟨some c, some d⟩).2 = .thrown m) ∧
    (∀ (s : String) (rt c d : ℚ) (pre : SessionState) (tid : Nat),
      c < 1000 → d < rt * 1000 →
      (sendUnwrapped (.ok (.str s)) (fun _ => .error m) rt pre tid
        ⟨some c, some d⟩).2 = .thrown m) := by
  refine ⟨?_, ?_, ?_⟩
  · cases ho : retryTimeouts o with
    | nil => simp [deviceSend, attemptLoop, ho, h0]
    | cons t rest => simp [deviceSend, attemptLoop, ho, h0]
  · intro decrypt rt c d pre tid hc hd
    simp only [sendUnwrapped]
    rw [if_neg (not_le.mpr hc), if_neg (not_le.mpr hd)]
  · intro s rt c d pre tid hc hd
    simp only [sendUnwrapped]
    rw [if_neg (not_le.mpr hc), if_neg (not_le.mpr hd),
      if_neg (by simp [typeofStr] : ¬(typeofStr (.str s) = "object" ∨ typeofStr (.str s) = "undefined"))]

/-- C7 witness: a transport whose first attempt's bytes fail decoding makes
exactly one attempt and hangs; the two `sendUnwrapped` scenarios (parse
throw, decrypt throw) are exercised at concrete times. -/
theorem decode_error_no_retry_witness :
    deviceSend (E := String) (R := JSVal) (fun m => m) srcRetryOptions (some "10.1.1.6")
        (fun _ => .thrown "ProtocolDecodeError: bad prefix")
      = (.hung "ProtocolDecodeError: bad prefix", 1, []) ∧
    (sendUnwrapped (.error "ProtocolDecodeError: bad prefix") (fun _ => .ok .undefined) 10
        ⟨none⟩ 3 ⟨some 1, some 2⟩).2 = .thrown "ProtocolDecodeError: bad prefix" ∧
    (sendUnwrapped (.ok (.str "3.3kzRp7q")) (fun _ => .error "ProtocolDecodeError: bad prefix") 10
        ⟨none⟩ 3 ⟨some 1, some 2⟩).2 = .thrown "ProtocolDecodeError: bad prefix" := by
  obtain ⟨h1, h2, h3⟩ := decode_error_no_retry (E := String) (R := JSVal) (fun m => m)
    srcRetryOptions "10.1.1.6" (fun _ => .thrown "ProtocolDecodeError: bad prefix")
    "ProtocolDecodeError: bad prefix" rfl
  exact ⟨h1, h2 (fun _ => .ok .undefined) 10 1 2 ⟨none⟩ 3 (by norm_num) (by norm_num),
    h3 "3.3kzRp7q" 10 1 2 ⟨none⟩ 3 (by norm_num) (by norm_num)⟩

/-! ## Claim C8 — query frame is plaintext -/

/-- C8: every `query` call sends the plaintext JSON `{gwId, devId}` — both
fields the device id — encoded with commandByte `0x0a`; the body is exactly
the serialised payload, with no encryption and no signature applied (the
builder involves no cipher at all), as the closed instance spells out. -/
theorem get_query_frame_plaintext (id : String) :
    tuyaGetFrame id = ⟨0x0a, (jsonStringify (queryPayload id)).getD ""⟩ ∧
    queryPayload id = .obj (.cons "gwId" (.str id) (.cons "devId" (.str id) .nil)) ∧
    tuyaGetFrame "deadbeef4ae51f90" =
      ⟨0x0a, "\x7b\"gwId\":\"deadbeef4ae51f90\",\"devId\":\"deadbeef4ae51f90\"\x7d"⟩ :=
  ⟨rfl, rfl, rfl⟩

/-! ## Claim C9 — update option shapes -/

/-- C9, counterexample: the options object `{dps: "3", "7": true}` is
neither `{dps: key, set: value}` (no `set`) nor `{set: value}`, yet it is
*not* used verbatim as a raw PropertyMap: `set` builds `{"3": undefined}`
from it, because the code branches on `options.dps != undefined` alone. -/
theorem set_options_raw_counterexample :
    buildDps (fieldsOf [("dps", .str "3"), ("7", .bool true)])
      = .ok (.cons "3" .undefined .nil) ∧
    Except.ok (ε := String) (JFields.cons "3" .undefined .nil)
      ≠ .ok (fieldsOf [("dps", .str "3"), ("7", .bool true)]) :=
  ⟨rfl, by decide⟩

/-- C9 (amended): `{dps: k, set: v}` with `k` defined yields
`{String(k): v}`; `{set: v}` with `dps` (strictly) undefined yields
`{"1": v}`; an options object whose `dps` *and* `set` are both loosely
undefined is used verbatim as the raw PropertyMap — but an object with
`dps` defined and `set` undefined yields `{String(k): undefined}` rather
than being used verbatim. -/
theorem set_options_shapes (options : JFields) :
    (looseDefined (objGet options "dps") = false → looseDefined (objGet options "set") = false →
      buildDps options = .ok options) ∧
    (objGet options "dps" = .undefined → looseDefined (objGet options "set") = true →
      buildDps options = .ok (.cons "1" (objGet options "set") .nil)) ∧
    (looseDefined (objGet options "dps") = true →
      buildDps options = .ok (.cons (toPropKey (objGet options "dps"))
        (objGet options "set") .nil)) := by
  refine ⟨fun h1 h2 => ?_, fun h1 h2 => ?_, fun h1 => ?_⟩
  · simp [buildDps, h1, h2]
  · rw [buildDps, if_pos (by rw [h1, h2]; rfl), if_pos h1]
  · have hne : ¬ objGet options "dps" = JSVal.undefined := by
      intro he; rw [he] at h1; simp [looseDefined] at h1
    rw [buildDps, if_pos (by rw [h1]; rfl), if_neg hne, jsToString_of_looseDefined _ h1]

/-- C9 witness: the three shapes at concrete options — a raw map `{5: true}`
passes through verbatim, `{set: false}` becomes `{"1": false}`, and
`{dps: 2, set: "on"}` becomes `{"2": "on"}` (numeric key stringified). -/
theorem set_options_shapes_witness :
    buildDps (fieldsOf [("5", .bool true)]) = .ok (fieldsOf [("5", .bool true)]) ∧
    buildDps (fieldsOf [("set", .bool false)])
      = .ok (.cons "1" (objGet (fieldsOf [("set", .bool false)]) "set") .nil) ∧
    buildDps (fieldsOf [("dps", .num 2), ("set", .str "on")])
      = .ok (.cons (toPropKey (objGet (fieldsOf [("dps", .num 2), ("set", .str "on")]) "dps"))
          (objGet (fieldsOf [("dps", .num 2), ("set", .str "on")]) "set") .nil) :=
  ⟨(set_options_shapes (fieldsOf [("5", .bool true)])).1 rfl rfl,
   (set_options_shapes (fieldsOf [("set", .bool false)])).2.1 rfl rfl,
   (set_options_shapes (fieldsOf [("dps", .num 2), ("set", .str "on")])).2.2 rfl⟩

/-! ## Claim C10 — dps-without-set and raw maps containing "dps"/"set" -/

/-- C10: when `options.dps` is defined but `options.set` is not, `set`
builds the single-entry map `{String(k): undefined}` instead of treating
the object as a raw PropertyMap; consequently, whenever `dps` or `set` is
(loosely) defined in the options — in particular for any raw PropertyMap
carrying a key named `"dps"` or `"set"` with a defined value — the object
is never transmitted verbatim. -/
theorem set_dps_without_set (options : JFields) :
    (∀ k, objGet options "dps" = k → looseDefined k = true →
      objGet options "set" = .undefined →
      buildDps options = .ok (.cons (toPropKey k) .undefined .nil)) ∧
    ((looseDefined (objGet options "dps") = true ∨ looseDefined (objGet options "set") = true) →
      buildDps options ≠ .ok options) := by
  constructor
  · intro k hk hdef hset
    have hku : ¬ k = JSVal.undefined := by
      intro he; rw [he] at hdef; simp [looseDefined] at hdef
    rw [buildDps, hk, hset, if_pos (by rw [hdef]; rfl), if_neg hku,
      jsToString_of_looseDefined k hdef]
  · intro hdef hcontra
    by_cases hd : looseDefined (objGet options "dps") = true
    · have hne : ¬ objGet options "dps" = JSVal.undefined := by
        intro he; rw [he] at hd; simp [looseDefined] at hd
      rw [buildDps, if_pos (by rw [hd]; rfl), if_neg hne,
        jsToString_of_looseDefined _ hd] at hcontra
      have hopt : options = JFields.cons (toPropKey (objGet options "dps"))
          (objGet options "set") JFields.nil := by
        injection hcontra with h; exact h.symm
      by_cases hs : toPropKey (objGet options "dps") = "dps"
      · have hset : objGet options "set" = .undefined := by
          conv_lhs => rw [hopt]
          rw [objGet_cons, if_neg (by rw [hs]; decide), objGet_nil]
        have hdps : objGet options "dps" = objGet options "set" := by
          conv_lhs => rw [hopt]
          rw [objGet_cons, if_pos hs]
        rw [hset] at hdps
        rw [hdps] at hd
        simp [looseDefined] at hd
      · have hdps : objGet options "dps" = .undefined := by
          conv_lhs => rw [hopt]
          rw [objGet_cons, if_neg hs, objGet_nil]
        rw [hdps] at hd
        simp [looseDefined] at hd
    · have hset : looseDefined (objGet options "set") = true := by
        rcases hdef with h | h
        · exact absurd h hd
        · exact h
      by_cases hu : objGet options "dps" = JSVal.undefined
      · rw [buildDps, if_pos (by rw [hset]; simp), if_pos hu] at hcontra
        have hopt : options = JFields.cons "1" (objGet options "set") JFields.nil := by
          injection hcontra with h; exact h.symm
        have : objGet options "set" = .undefined := by
          conv_lhs => rw [hopt]
          rw [objGet_cons, if_neg (by decide), objGet_nil]
        rw [this] at hset
        simp [looseDefined] at hset
      · have hnull : objGet options "dps" = .null := by
          cases h' : objGet options "dps" <;> simp_all [looseDefined]
        rw [buildDps, if_pos (by rw [hset]; simp), if_neg hu, hnull] at hcontra
        simp [jsToString] at hcontra

/-- C10 witness: `{dps: "3"}` (no `set`) becomes `{"3": undefined}`, and is
in particular not transmitted verbatim. -/
theorem set_dps_without_set_witness :
    buildDps (fieldsOf [("dps", .str "3")])
      = .ok (.cons (toPropKey (.str "3")) .undefined .nil) ∧
    buildDps (fieldsOf [("dps", .str "3")]) ≠ .ok (fieldsOf [("dps", .str "3")]) :=
  ⟨(set_dps_without_set (fieldsOf [("dps", .str "3")])).1 (.str "3") rfl rfl rfl,
   (set_dps_without_set (fieldsOf [("dps", .str "3")])).2 (Or.inl rfl)⟩

end Tuya
